import Mathlib

/-!
Verification of the DYOM mission specification against the repository
`dyom_specification` (pydantic data model under `src/models/`, validation
engine in `src/validate_mission.py`).

Python floats are embedded as `Rat` (every concrete value appearing in the
source's constraints is a small integer, exactly representable, and the
comparisons the code performs agree with rational comparison).  Python
exceptions are embedded as the `PyErr` error type of an `Except` monad.
-/

namespace DYOM

/-- Python runtime exceptions that the validation code can raise. -/
inductive PyErr where
  | attributeError (attr : String)
  | typeError (msg : String)
deriving Repr, DecidableEq

/-- `ValidationResult` from `src/validate_mission.py` lines 10-32: three
ordered string lists, mutated by the `add_*` methods. -/
structure ValidationResult where
  errors : List String
  warnings : List String
  info : List String
deriving Repr, DecidableEq

/-- `ValidationResult.__init__`: all three lists start empty. -/
def ValidationResult.empty : ValidationResult := ⟨[], [], []⟩

/-- `add_error`: appends `f"ERROR: {message}"` to `self.errors`. -/
def ValidationResult.add_error (r : ValidationResult) (message : String) : ValidationResult :=
  { r with errors := r.errors ++ [s!"ERROR: {message}"] }

/-- `add_warning`: appends `f"WARNING: {message}"` to `self.warnings`. -/
def ValidationResult.add_warning (r : ValidationResult) (message : String) : ValidationResult :=
  { r with warnings := r.warnings ++ [s!"WARNING: {message}"] }

/-- `add_info`: appends `f"INFO: {message}"` to `self.info`. -/
def ValidationResult.add_info (r : ValidationResult) (message : String) : ValidationResult :=
  { r with info := r.info ++ [s!"INFO: {message}"] }

/-- `is_valid`: `len(self.errors) == 0`. -/
def ValidationResult.is_valid (r : ValidationResult) : Bool :=
  r.errors.length == 0

/-! ### Primitive enumerations (`src/models/constants.py`, `src/models/actor.py`)

Pydantic validates an `IntEnum`-typed field by membership in the enum's
value set; each enum is embedded as its list of member values. -/

/-- Member values of `Gang` (`src/models/actor.py` lines 206-250): 4..14 and 17..26. -/
def gangValues : List Int :=
  [4, 5, 6, 7, 8, 9, 10, 11, 12, 13, 14, 17, 18, 19, 20, 21, 22, 23, 24, 25, 26]

/-- Member values of `Animation` (`src/models/actor.py` lines 162-173): the
enum declares only the special animations -1..-12. -/
def animationValues : List Int :=
  [-1, -2, -3, -4, -5, -6, -7, -8, -9, -10, -11, -12]

/-- Member values of `Weapon` (`src/models/constants.py` lines 67-164):
0..18 and 22..48 (19, 20, 21 are historical gaps). -/
def weaponValues : List Int :=
  [0, 1, 2, 3, 4, 5, 6, 7, 8, 9, 10, 11, 12, 13, 14, 15, 16, 17, 18,
   22, 23, 24, 25, 26, 27, 28, 29, 30, 31, 32, 33, 34, 35, 36, 37, 38,
   39, 40, 41, 42, 43, 44, 45, 46, 47, 48]

/-- Member values of `RadarMarker` (`src/models/objectives/base.py` lines 61-75). -/
def radarMarkerValues : List Int := [-1, 0, 1, 2, 3, 4]

/-! ### Entity records -/

/-- `Actor` (`src/models/actor.py` lines 264-310).  Field set is complete:
note that the class declares `animation` and `animation_argument` but **no**
`animation_info` attribute. -/
structure Actor where
  skin : Int
  position_x : Rat
  position_y : Rat
  position_z : Rat
  direction : Rat
  interior : Int
  gang : Int
  flags : Int
  weapon : Int
  ammo : Int
  accuracy : Int
  health : Int
  spawn : Int
  despawn : Int
  must_survive : Int
  animation : Int
  animation_argument : Int
deriving Repr, DecidableEq

/-- The per-field constraints pydantic checks when constructing an `Actor`
(`Field(..., ge=..., le=...)` bounds and enum membership for `gang` and
`animation`).  `weapon` is declared as a plain `int` with `ge=0` only
(`src/models/actor.py` line 298), not as the `Weapon` enumeration. -/
def actorWf (a : Actor) : Bool :=
  decide (0 ≤ a.skin) &&
  decide (0 ≤ a.direction && a.direction ≤ 360) &&
  decide (0 ≤ a.interior) &&
  decide (a.gang ∈ gangValues) &&
  decide (0 ≤ a.flags) &&
  decide (0 ≤ a.weapon) &&
  decide (0 ≤ a.ammo) &&
  decide (0 ≤ a.accuracy && a.accuracy ≤ 100) &&
  decide (0 ≤ a.health && a.health ≤ 200) &&
  decide (0 ≤ a.spawn) &&
  decide (0 ≤ a.despawn && a.despawn ≤ 1000) &&
  decide (0 ≤ a.must_survive && a.must_survive ≤ 1) &&
  decide (a.animation ∈ animationValues)

/-- Pydantic construction of an `Actor`: succeeds iff every field-level
constraint holds. -/
def decodeActor (a : Actor) : Option Actor :=
  if actorWf a then some a else none

/-- `Car` (`src/models/car.py`): the decomposed-boolean form; no composite
flags integer exists on this model. -/
structure Car where
  car_id : Int
  color_primary : Int
  color_secondary : Int
  position_x : Rat
  position_y : Rat
  position_z : Rat
  direction : Rat
  interior : Int
  health : Int
  immune_bullet : Bool
  immune_explosion : Bool
  immune_tyres : Bool
  immune_collision : Bool
  locked : Bool
  handbraked : Bool
  must_destroy : Bool
  driveby : Bool
  spawn : Int
  despawn : Int
  must_survive : Int
deriving Repr, DecidableEq

/-- `Pickup` (`src/models/pickup.py`). -/
structure Pickup where
  object_id : Int
  ammo : Int
  behaviour : Int
  position_x : Rat
  position_y : Rat
  position_z : Rat
  spawn : Int
  despawn : Int
deriving Repr, DecidableEq

/-- `Object` (`src/models/object.py` lines 115-157).  `behaviour` is
`int | None` bounded 0..4 and `route_id` is `int | None` with `ge=1`. -/
structure Object where
  object_id : Int
  position_x : Rat
  position_y : Rat
  position_z : Rat
  rotation_x : Rat
  rotation_y : Rat
  rotation_z : Rat
  interior : Int
  behaviour : Option Int
  route_id : Option Int
  spawn : Int
  despawn : Int
deriving Repr, DecidableEq

/-- The per-field constraints pydantic checks when constructing an `Object`:
`object_id ge=-467`, `interior ge=0 le=7`, `behaviour ge=0 le=4` (when
present), `route_id ge=1` (when present), `spawn ge=0`,
`despawn ge=0 le=1000`. -/
def objectWf (o : Object) : Bool :=
  decide (-467 ≤ o.object_id) &&
  decide (0 ≤ o.interior && o.interior ≤ 7) &&
  (match o.behaviour with
   | none => true
   | some b => decide (0 ≤ b && b ≤ 4)) &&
  (match o.route_id with
   | none => true
   | some r => decide (1 ≤ r)) &&
  decide (0 ≤ o.spawn) &&
  decide (0 ≤ o.despawn && o.despawn ≤ 1000)

/-- Pydantic construction of an `Object`. -/
def decodeObject (o : Object) : Option Object :=
  if objectWf o then some o else none

/-- `RouteType` (`src/models/route.py` lines 13-25). -/
inductive RouteType where
  | route
  | movement
  | displacement
  | invalid
deriving Repr, DecidableEq

/-- `RoutePoint` (`src/models/route.py` lines 28-52). -/
structure RoutePoint where
  position_x : Rat
  position_y : Rat
  position_z : Rat
  rotation_x : Rat
  rotation_y : Rat
  rotation_z : Rat
deriving Repr, DecidableEq

/-- `Route` (`src/models/route.py` lines 81-103): `id` is `ge=0`. -/
structure Route where
  id : Int
  type : RouteType
  points : List RoutePoint
  loop : Bool
  duration : Rat
  trigger_diameter : Rat
deriving Repr, DecidableEq

/-- `PathsCollection` (`src/models/mission.py` lines 93-103). -/
structure PathsCollection where
  routes : List Route
  movements : List Route
  displacements : List Route
deriving Repr, DecidableEq

/-! ### Objective variants and the `AnyObjective` union

`AnyObjective` (`src/models/mission.py` lines 107-129) is a plain (not
discriminated) union of 21 variant classes, each pinning `objective_type`
with a `Literal[n]` field.  The embedding carries, per variant, exactly the
fields that `validate_references` can read through `model_dump()` under the
keys it queries (`actor_id`, `car_id`, `pickup_id`, `object_id`,
`movement_id`) plus the fields the claims mention (`ObjectiveCutscene`'s
`behaviour`/`actor_idx`, `ObjectiveObject`'s full record); the remaining
positional/text fields of each variant are never read by the validation
engine and are omitted here.  No variant declares a field named `actor_id`,
`pickup_id` or `movement_id` (checked against `src/models/objectives/`);
`car_id` exists on `ObjectiveCar` (a vehicle *model* id, 400..611) and on
`ObjectivePlayerTeleportCar`; `object_id` exists on `ObjectivePickup` and
`ObjectiveObject` (both *model* ids, not entity ordinals). -/

/-- `ObjectiveObject` (`src/models/objectives/object.py` lines 26-88):
base fields plus rotations, model id, composite-decoded `behaviour` /
`route_id` (same declarations as `Object`), interaction type and marker. -/
structure ObjectiveObject where
  position_x : Rat
  position_y : Rat
  position_z : Rat
  direction : Rat
  interior : Int
  object_id : Int
  rotation_x : Rat
  rotation_y : Rat
  rotation_z : Rat
  behaviour : Option Int
  route_id : Option Int
  objective : Int
  radar_marker : Int
deriving Repr, DecidableEq

/-- Pydantic constraints for `ObjectiveObject`: base `direction ge=0 le=360`,
`interior ge=0`, rotations `ge=0 le=360`, `object_id ge=-467`,
`behaviour ge=0 le=4`, `route_id ge=1`, `objective` in
`ObjectObjectiveType` (0..3), `radar_marker` in `RadarMarker`. -/
def objectiveObjectWf (o : ObjectiveObject) : Bool :=
  decide (0 ≤ o.direction && o.direction ≤ 360) &&
  decide (0 ≤ o.interior) &&
  decide (0 ≤ o.rotation_x && o.rotation_x ≤ 360) &&
  decide (0 ≤ o.rotation_y && o.rotation_y ≤ 360) &&
  decide (0 ≤ o.rotation_z && o.rotation_z ≤ 360) &&
  decide (-467 ≤ o.object_id) &&
  (match o.behaviour with
   | none => true
   | some b => decide (0 ≤ b && b ≤ 4)) &&
  (match o.route_id with
   | none => true
   | some r => decide (1 ≤ r)) &&
  decide (0 ≤ o.objective && o.objective ≤ 3) &&
  decide (o.radar_marker ∈ radarMarkerValues)

/-- Pydantic construction of an `ObjectiveObject`. -/
def decodeObjectiveObject (o : ObjectiveObject) : Option ObjectiveObject :=
  if objectiveObjectWf o then some o else none

/-- The 21 variants of `AnyObjective`, one constructor per variant class.
`moneySub` is modelled from the spec: `src/models/objectives/money_sub.py`
is missing from the sources (only its import in `objectives/__init__.py`
remains); per the spec it is the tag-21 money-subtract objective and embeds
no entity reference. -/
inductive AnyObjective where
  | car (car_id : Int)
  | checkpoint
  | pickup (object_id : Int)
  | actor
  | cutscene (behaviour : Int) (actor_idx : Int)
  | playerTeleport
  | countdown
  | playerTeleportCar (car_id : Int)
  | timeout
  | weather
  | daytime
  | citizenBehaviour
  | wantedLevel
  | timelimit
  | timerStart
  | playerDisarm
  | phoneCall
  | object (o : ObjectiveObject)
  | moneyAdd
  | moneySub
  | playerAnimation
deriving Repr, DecidableEq

/-- The `objective_type` literal each variant pins
(`Literal[n]` in `src/models/objectives/*.py`; `ObjectiveType` in
`src/models/objectives/base.py` lines 37-58). -/
def AnyObjective.objective_type : AnyObjective → Int
  | .car _ => 1
  | .checkpoint => 2
  | .pickup _ => 3
  | .actor => 5
  | .cutscene _ _ => 6
  | .playerTeleport => 7
  | .countdown => 8
  | .playerTeleportCar _ => 9
  | .timeout => 10
  | .weather => 11
  | .daytime => 12
  | .citizenBehaviour => 13
  | .wantedLevel => 14
  | .timelimit => 15
  | .timerStart => 16
  | .playerDisarm => 17
  | .phoneCall => 18
  | .object _ => 19
  | .moneyAdd => 20
  | .moneySub => 21
  | .playerAnimation => 22

/-- `objective.model_dump().get(key)` restricted to the five integer keys
`validate_references` queries: returns the variant's field of that name
when the variant declares one, and `none` otherwise. -/
def AnyObjective.dumpGet : AnyObjective → String → Option Int
  | .car cid, "car_id" => some cid
  | .playerTeleportCar cid, "car_id" => some cid
  | .pickup oid, "object_id" => some oid
  | .object o, "object_id" => some o.object_id
  | _, _ => none

/-- `MissionInfo` (`src/models/mission.py` lines 43-55). -/
structure MissionInfo where
  name : String
  author : String
  intro_text_1 : String
  intro_text_2 : String
  intro_text_3 : String
  sound_filename : String
  published : Bool
deriving Repr, DecidableEq

/-- `PlayerInitial` (`src/models/mission.py` lines 58-72): its `weapon`
field is typed as the `Weapon` enumeration (with an additional `ge=0`). -/
structure PlayerInitial where
  interior : Int
  position_x : Rat
  position_y : Rat
  position_z : Rat
  direction : Rat
  skin : Int
  health : Int
  weapon : Int
  ammo : Int
deriving Repr, DecidableEq

/-- Pydantic validation of `PlayerInitial.weapon`: the raw integer must be
a member of the `Weapon` enumeration (and `ge=0`). -/
def decodePlayerWeapon (w : Int) : Option Int :=
  if decide (w ∈ weaponValues) && decide (0 ≤ w) then some w else none

/-- `InitialSettings` (`src/models/mission.py` lines 75-90). -/
structure InitialSettings where
  timelimit : Int
  day_time : Int
  weather : Int
  wanted_level_min : Int
  wanted_level_max : Int
  riot : Bool
  timed : Bool
  player : PlayerInitial
deriving Repr, DecidableEq

/-- `Mission` (`src/models/mission.py` lines 132-163). -/
structure Mission where
  mission : MissionInfo
  initial : InitialSettings
  objectives : List AnyObjective
  actors : List Actor
  cars : List Car
  pickups : List Pickup
  objects : List Object
  paths : PathsCollection
deriving Repr, DecidableEq

/-! ### Validation engine (`src/validate_mission.py`) -/

/-- One entry of the `limits` loop in `validate_entity_limits`
(`src/validate_mission.py` lines 55-63).  The 90%-warning threshold is
`count > max_count * 0.9` on Python floats; for the two maxima that occur
(100 and 50) `max_count * 0.9` is exactly 90.0 resp. 45.0 as a double, so
the comparison is exactly `10 * count > 9 * max_count` on integers. -/
def checkLimit (res : ValidationResult) (entity_type : String) (count max_count : Nat) :
    ValidationResult :=
  let res :=
    if count > max_count then
      res.add_error s!"Too many {entity_type}: {count} (max: {max_count})"
    else if 10 * count > 9 * max_count then
      res.add_warning s!"Approaching limit for {entity_type}: {count}/{max_count}"
    else res
  if count > 0 then
    let cap := entity_type.capitalize
    res.add_info s!"{cap}: {count}/{max_count}"
  else res

/-- `validate_entity_limits` (`src/validate_mission.py` lines 44-63): the
`limits` dict iterates in insertion order objectives, actors, cars,
pickups, objects. -/
def validate_entity_limits (m : Mission) (res : ValidationResult) : ValidationResult :=
  let res := checkLimit res "objectives" m.objectives.length 100
  let res := checkLimit res "actors" m.actors.length 100
  let res := checkLimit res "cars" m.cars.length 50
  let res := checkLimit res "pickups" m.pickups.length 50
  checkLimit res "objects" m.objects.length 100

/-- Total of `len(route.points)` over routes, movements and displacements
(`src/validate_mission.py` lines 69-78). -/
def totalRoutePoints (m : Mission) : Nat :=
  (m.paths.routes.map (fun r => r.points.length)).sum +
  (m.paths.movements.map (fun r => r.points.length)).sum +
  (m.paths.displacements.map (fun r => r.points.length)).sum

/-- `validate_route_points` (`src/validate_mission.py` lines 66-87) with
`max_points = 399`.  The warning threshold `total_points > 399 * 0.9`
compares an integer against the double nearest 359.1, which lies strictly
between 359 and 360, so it is exactly `total_points ≥ 360`. -/
def validate_route_points (m : Mission) (res : ValidationResult) : ValidationResult :=
  let total_points := totalRoutePoints m
  let res :=
    if total_points > 399 then
      res.add_error s!"Too many total route points: {total_points} (max: 399)"
    else if total_points ≥ 360 then
      res.add_warning s!"Approaching route point limit: {total_points}/399"
    else res
  if total_points > 0 then
    res.add_info s!"Total route points: {total_points}/399"
  else res

/-- The actor loop of `validate_references` (`src/validate_mission.py`
lines 103-106).  The loop body evaluates `actor.animation_info`, but the
`Actor` model (`src/models/actor.py` lines 264-310) declares no attribute
of that name, so the first iteration raises
`AttributeError` — regardless of the actor's field values. -/
def actorRefLoop : List Actor → Except PyErr (List String)
  | [] => .ok []
  | _ :: _ => .error (.attributeError "animation_info")

/-- The body of the object loop of `validate_references`
(`src/validate_mission.py` lines 109-114).  Short-circuit order follows
the Python source: `obj.behaviour == 1` is a plain equality (False for
`None`), but the `elif` guard `obj.behaviour > 1` raises `TypeError` when
`behaviour` is `None`. -/
def objectRefCheck (displacement_ids movement_ids : List Int) (idx : Nat) (o : Object) :
    Except PyErr (List String) :=
  match o.route_id with
  | none => .ok []
  | some rid =>
    if o.behaviour == some 1 then
      .ok (if decide (0 ≤ rid) && !(displacement_ids.contains rid) then
             [s!"Object {idx}: Invalid displacement_id {rid}"]
           else [])
    else
      match o.behaviour with
      | none => .error (.typeError "not supported between instances of NoneType and int")
      | some b =>
        .ok (if decide (1 < b) && decide (0 ≤ rid) && !(movement_ids.contains rid) then
               [s!"Object {idx}: Invalid movement_id {rid}"]
             else [])

/-- The object loop of `validate_references`, enumerating from `idx`. -/
def objectRefLoop (displacement_ids movement_ids : List Int) :
    Nat → List Object → Except PyErr (List String)
  | _, [] => .ok []
  | idx, o :: rest => do
    let e ← objectRefCheck displacement_ids movement_ids idx o
    let es ← objectRefLoop displacement_ids movement_ids (idx + 1) rest
    .ok (e ++ es)

/-- The body of the objective loop of `validate_references`
(`src/validate_mission.py` lines 117-149): dispatch on
`obj_dict.get('objective_type')` with `obj_dict.get(key, -1)` field
lookups. -/
def objectiveRefErrors (actor_ids car_ids pickup_ids object_ids movement_ids : List Int)
    (idx : Nat) (o : AnyObjective) : List String :=
  let t := o.objective_type
  if [1, 2, 3].contains t then
    let actor_id := (o.dumpGet "actor_id").getD (-1)
    if decide (0 ≤ actor_id) && !(actor_ids.contains actor_id) then
      [s!"Objective {idx}: Invalid actor_id {actor_id}"]
    else []
  else if [4, 5, 6, 7].contains t then
    let car_id := (o.dumpGet "car_id").getD (-1)
    if decide (0 ≤ car_id) && !(car_ids.contains car_id) then
      [s!"Objective {idx}: Invalid car_id {car_id}"]
    else []
  else if t == 10 then
    let pickup_id := (o.dumpGet "pickup_id").getD (-1)
    if decide (0 ≤ pickup_id) && !(pickup_ids.contains pickup_id) then
      [s!"Objective {idx}: Invalid pickup_id {pickup_id}"]
    else []
  else if t == 24 then
    let object_id := (o.dumpGet "object_id").getD (-1)
    if decide (0 ≤ object_id) && !(object_ids.contains object_id) then
      [s!"Objective {idx}: Invalid object_id {object_id}"]
    else []
  else if t == 11 then
    let movement_id := (o.dumpGet "movement_id").getD (-1)
    if decide (0 ≤ movement_id) && !(movement_ids.contains movement_id) then
      [s!"Objective {idx}: Invalid movement_id {movement_id}"]
    else []
  else []

/-- Ordinal index set `{i for i in range(n)}` as a list of integers. -/
def idRange (n : Nat) : List Int :=
  (List.range n).map (fun i => (i : Int))

/-- `validate_references` (`src/validate_mission.py` lines 90-149): builds
the id sets, then runs the actor, object and objective loops, appending
every emitted message to `result` via `add_error`.  Exceptions raised by
the loops propagate. -/
def validate_references (m : Mission) (result : ValidationResult) :
    Except PyErr ValidationResult := do
  let actor_ids := idRange m.actors.length
  let car_ids := idRange m.cars.length
  let object_ids := idRange m.objects.length
  let pickup_ids := idRange m.pickups.length
  let _route_ids := m.paths.routes.map (fun r => r.id)
  let movement_ids := m.paths.movements.map (fun r => r.id)
  let displacement_ids := m.paths.displacements.map (fun r => r.id)
  let actorErrs ← actorRefLoop m.actors
  let objectErrs ← objectRefLoop displacement_ids movement_ids 0 m.objects
  let objectiveErrs :=
    (m.objectives.enum.map (fun p =>
      objectiveRefErrors actor_ids car_ids pickup_ids object_ids movement_ids p.1 p.2)).flatten
  .ok ((actorErrs ++ objectErrs ++ objectiveErrs).foldl
        (fun r msg => r.add_error msg) result)

/-- The validation stage of `validate_mission_file`
(`src/validate_mission.py` lines 191-196): the three passes run in order
on a successfully decoded `Mission`, sharing one result accumulator. -/
def validate_mission (m : Mission) : Except PyErr ValidationResult :=
  validate_references m (validate_route_points m (validate_entity_limits m ValidationResult.empty))

/-! ### Schema (decode) errors for the objective union

`Mission.model_validate` validates each element of `objectives` against the
plain union `AnyObjective`.  Pydantic tries every union member; a member
fails on a record whose `objective_type` does not equal the member's
`Literal`, producing one error with location
`('objectives', <index>, '<MemberClass>', 'objective_type')` and message
`"Input should be <literal>"`.  Errors of all list elements are collected
into one `ValidationError`, which `validate_mission_file`
(`src/validate_mission.py` lines 180-189) renders as
`"Schema validation failed:"` followed by one `f"  {loc}: {msg}"` line per
error, with `loc` joined by `" -> "`.  The raw records here are assumed to
carry valid values for every non-tag field of every member (extra fields
are ignored by pydantic), so the `objective_type` literal is the only
possible per-member failure. -/

/-- The union members of `AnyObjective` in declaration order
(`src/models/mission.py` lines 107-129) with their `Literal` tags. -/
def unionMembers : List (String × Int) :=
  [("ObjectiveCar", 1), ("ObjectiveCheckpoint", 2), ("ObjectivePickup", 3),
   ("ObjectiveActor", 5), ("ObjectiveCutscene", 6), ("ObjectivePlayerTeleport", 7),
   ("ObjectiveCountdown", 8), ("ObjectivePlayerTeleportCar", 9), ("ObjectiveTimeout", 10),
   ("ObjectiveWeather", 11), ("ObjectiveDayTime", 12), ("ObjectiveCitizenBehaviour", 13),
   ("ObjectiveWantedLevel", 14), ("ObjectiveTimelimit", 15), ("ObjectiveTimerStart", 16),
   ("ObjectivePlayerDisarm", 17), ("ObjectivePhoneCall", 18), ("ObjectiveObject", 19),
   ("ObjectiveMoneyAdd", 20), ("ObjectiveMoneySub", 21), ("ObjectivePlayerAnimation", 22)]

/-- The set of `objective_type` tags some union member accepts:
{1, 2, 3} ∪ {5..22} (4 is the reserved `UNUSED` tag of `ObjectiveType`). -/
def knownTags : List Int := unionMembers.map (fun nk => nk.2)

/-- A pydantic validation error: location path and message. -/
structure PydanticError where
  loc : List String
  msg : String
deriving Repr, DecidableEq

/-- Union validation of the objective at sequence index `idx` whose raw
`objective_type` is `tag`: no errors when some member's literal matches,
otherwise one literal-mismatch error per member. -/
def objectiveTagErrors (idx : Nat) (tag : Int) : List PydanticError :=
  if decide (tag ∈ knownTags) then []
  else
    unionMembers.map (fun nk =>
      let memberName := nk.1
      let lit := nk.2
      { loc := ["objectives", toString idx, memberName, "objective_type"],
        msg := s!"Input should be {lit}" })

/-- The `ValidationError` branch of `validate_mission_file`
(`src/validate_mission.py` lines 180-189) applied to a raw mission whose
objective records carry the given tags: schema errors are rendered into
the result; with no schema error the result is untouched. -/
def missionObjectivesSchemaResult (tags : List Int) : ValidationResult :=
  let errs := (tags.enum.map (fun p => objectiveTagErrors p.1 p.2)).flatten
  if errs.isEmpty then ValidationResult.empty
  else
    let r := ValidationResult.empty.add_error "Schema validation failed:"
    errs.foldl (fun r e =>
      let locStr := String.intercalate " -> " e.loc
      let m := e.msg
      r.add_error s!"  {locStr}: {m}") r

/-- The schema-error result for a raw mission with two objective records,
one with reserved tag 4 and one with tag 99. -/
def c5Result : ValidationResult := missionObjectivesSchemaResult [4, 99]

/-- Character-list version of: `needle` matches at the head of `hay`. -/
def matchesAt : List Char → List Char → Bool
  | [], _ => true
  | _ :: _, [] => false
  | a :: as, b :: bs => a == b && matchesAt as bs

/-- Character-list substring search. -/
def hasSubAux (needle : List Char) : List Char → Bool
  | [] => matchesAt needle []
  | h :: t => matchesAt needle (h :: t) || hasSubAux needle t

/-- `needle` occurs as a contiguous substring of `hay`. -/
def hasSub (needle hay : String) : Bool :=
  hasSubAux needle.data hay.data

/-! ### Bitfield codecs (spec §4.1)

No `encode`/`decode` functions exist anywhere under `src/` — the composite
layouts are only documented (the cutscene layout in
`src/models/objectives/cutscene.py` lines 11-26 and 68-82, the actor flag
bits in `src/models/actor.py` lines 253-261; the interior composite and the
car-flag bits appear only in the spec).  The codecs below are therefore
modelled from the spec. -/

/-- Components of the object `interior` composite. -/
structure InteriorComponents where
  interior_id : Nat
  behaviour_id : Nat
deriving Repr, DecidableEq

/-- Modelled from the spec: decode of the object `interior` composite,
`value = interior_id (bits 0-5, must be 0..7) + (behaviour_id << 6)`;
rejects when the low bits exceed 7. -/
def interiorDecode (x : Nat) : Option InteriorComponents :=
  if x % 64 ≤ 7 then some ⟨x % 64, x / 64⟩ else none

/-- Modelled from the spec: encode of the object `interior` composite. -/
def interiorEncode (c : InteriorComponents) : Nat :=
  c.interior_id + 64 * c.behaviour_id

/-- Components of the cutscene `behaviour` composite
(`CutsceneBehaviour` names in `src/models/objectives/cutscene.py`). -/
structure CutsceneComponents where
  mode : Nat
  slow_motion : Bool
  camera_shaking : Bool
  skip_fading : Bool
  skip_widescreen : Bool
deriving Repr, DecidableEq

/-- `if b then 1 else 0`. -/
def b2n (b : Bool) : Nat := if b then 1 else 0

/-- Modelled from the spec: decode of the cutscene `behaviour` composite —
low byte (`x & 255`) is the camera mode, bits 8/9/10/11 are the
slow-motion / shaking / skip-fade / skip-widescreen flags. -/
def cutsceneDecode (x : Nat) : CutsceneComponents :=
  { mode := x % 256
    slow_motion := x / 256 % 2 == 1
    camera_shaking := x / 512 % 2 == 1
    skip_fading := x / 1024 % 2 == 1
    skip_widescreen := x / 2048 % 2 == 1 }

/-- Modelled from the spec: encode of the cutscene `behaviour` composite. -/
def cutsceneEncode (c : CutsceneComponents) : Nat :=
  c.mode + 256 * b2n c.slow_motion + 512 * b2n c.camera_shaking +
    1024 * b2n c.skip_fading + 2048 * b2n c.skip_widescreen

/-- Components of the actor behaviour-flag composite: one boolean per
named bit of `ActorFlags` (`src/models/actor.py` lines 253-261:
HOLD_POSITION=2 .. ENEMY_2=128), with unmapped bits (bit 0 and bits ≥ 8)
preserved opaquely in `rest`. -/
structure ActorFlagComponents where
  hold_position : Bool
  attack_direct : Bool
  follow : Bool
  headshot_immune : Bool
  kill_whole_gang : Bool
  health_bar : Bool
  enemy_2 : Bool
  rest : Nat
deriving Repr, DecidableEq

/-- Modelled from the spec: decode of the actor behaviour-flag composite —
one boolean per named bit, unknown bits round-tripped in `rest`. -/
def actorFlagsDecode (x : Nat) : ActorFlagComponents :=
  { hold_position := x / 2 % 2 == 1
    attack_direct := x / 4 % 2 == 1
    follow := x / 8 % 2 == 1
    headshot_immune := x / 16 % 2 == 1
    kill_whole_gang := x / 32 % 2 == 1
    health_bar := x / 64 % 2 == 1
    enemy_2 := x / 128 % 2 == 1
    rest := x % 2 + 256 * (x / 256) }

/-- Modelled from the spec: encode of the actor behaviour-flag composite —
bitwise OR of the set named flags with the opaque rest. -/
def actorFlagsEncode (c : ActorFlagComponents) : Nat :=
  c.rest + 2 * b2n c.hold_position + 4 * b2n c.attack_direct + 8 * b2n c.follow +
    16 * b2n c.headshot_immune + 32 * b2n c.kill_whole_gang + 64 * b2n c.health_bar +
    128 * b2n c.enemy_2

/-- A legal actor-flag components value: the opaque `rest` carries no
named bit (bits 1..7 clear, i.e. `rest % 256 ≤ 1`). -/
def actorFlagsLegal (c : ActorFlagComponents) : Prop :=
  c.rest % 256 ≤ 1

/-- Components of the car behaviour-flag composite.  Modelled from the
spec: the spec names `LOCKED=32` and `DRIVEBY=512` as the documented car
flag bits (the `Car` model in `src/models/car.py` stores only the
pre-decomposed booleans); other bits are preserved opaquely. -/
structure CarFlagComponents where
  locked : Bool
  driveby : Bool
  rest : Nat
deriving Repr, DecidableEq

/-- Modelled from the spec: decode of the car behaviour-flag composite. -/
def carFlagsDecode (x : Nat) : CarFlagComponents :=
  { locked := x / 32 % 2 == 1
    driveby := x / 512 % 2 == 1
    rest := x % 32 + 64 * (x / 64 % 8) + 1024 * (x / 1024) }

/-- Modelled from the spec: encode of the car behaviour-flag composite. -/
def carFlagsEncode (c : CarFlagComponents) : Nat :=
  c.rest + 32 * b2n c.locked + 512 * b2n c.driveby

/-- A legal car-flag components value: bits 5 and 9 of `rest` are clear. -/
def carFlagsLegal (c : CarFlagComponents) : Prop :=
  c.rest / 32 % 2 = 0 ∧ c.rest / 512 % 2 = 0

/-! ### Concrete fixtures used by the claim theorems -/

/-- A minimal `MissionInfo`. -/
def defaultInfo : MissionInfo :=
  ⟨"My Mission", "Mission Creator", "", "", "", "", false⟩

/-- The `PlayerInitial` defaults (`src/models/mission.py` lines 64-72). -/
def defaultPlayer : PlayerInitial :=
  ⟨0, 2488.56, -1666.84, 12.38, 0, 0, 100, 0, 1000000⟩

/-- The `InitialSettings` defaults (`src/models/mission.py` lines 81-90). -/
def defaultInitial : InitialSettings :=
  ⟨0, 8, 0, 0, 6, false, false, defaultPlayer⟩

/-- A mission with every collection empty. -/
def emptyMission : Mission :=
  ⟨defaultInfo, defaultInitial, [], [], [], [], [], ⟨[], [], []⟩⟩

/-- A well-formed actor using the model's default field values
(`src/models/actor.py`: gang 4, weapon 0, animation -1). -/
def defaultActor : Actor :=
  ⟨0, 0, 0, 0, 0, 0, 4, 0, 0, 1000000, 50, 100, 0, 1000, 0, -1, 0⟩

/-- `defaultActor` with `weapon := 49`, a value outside 0..48. -/
def actor49 : Actor :=
  { defaultActor with weapon := 49 }

/-- `defaultActor` with the negative weapon value -1. -/
def actorNeg : Actor :=
  { defaultActor with weapon := -1 }

/-- A mission containing one (fully well-formed) actor. -/
def missionOneActor : Mission :=
  { emptyMission with actors := [defaultActor] }

/-- Missions with 91, 100 and 101 actors. -/
def mission91 : Mission := { emptyMission with actors := List.replicate 91 defaultActor }

/-- Mission with 100 actors. -/
def mission100 : Mission := { emptyMission with actors := List.replicate 100 defaultActor }

/-- Mission with 101 actors. -/
def mission101 : Mission := { emptyMission with actors := List.replicate 101 defaultActor }

/-- The all-zero route point. -/
def zeroPoint : RoutePoint := ⟨0, 0, 0, 0, 0, 0⟩

/-- A route of the given kind with `n` points. -/
def mkRoute (i : Int) (t : RouteType) (n : Nat) : Route :=
  ⟨i, t, List.replicate n zeroPoint, false, 1, 1⟩

/-- Mission whose three path lists hold 133 + 133 + 133 = 399 points. -/
def mission399 : Mission :=
  { emptyMission with
    paths := ⟨[mkRoute 0 .route 133], [mkRoute 0 .movement 133], [mkRoute 0 .displacement 133]⟩ }

/-- `mission399` with one more point on the first route (total 400). -/
def mission400 : Mission :=
  { emptyMission with
    paths := ⟨[mkRoute 0 .route 134], [mkRoute 0 .movement 133], [mkRoute 0 .displacement 133]⟩ }

/-- A cutscene objective whose `actor_idx` is 5 (an actor-entity
reference, per its field description in
`src/models/objectives/cutscene.py` lines 85-90). -/
def danglingCutscene : AnyObjective := .cutscene 3 5

/-- A mission with no actors and a single cutscene objective whose
`actor_idx` 5 resolves against nothing. -/
def missionDanglingCutscene : Mission :=
  { emptyMission with objectives := [danglingCutscene] }

/-- A well-formed object with `behaviour = 1` and `route_id = 5`. -/
def displaceObject : Object :=
  ⟨1221, 0, 0, 0, 0, 0, 0, 0, some 1, some 5, 0, 1000⟩

/-- A mission holding one actor and `displaceObject`, with a movements
list (but no displacements list) containing route id 5. -/
def missionActorAndObject : Mission :=
  { emptyMission with
    actors := [defaultActor]
    objects := [displaceObject]
    paths := ⟨[], [mkRoute 5 .movement 2], []⟩ }

/-- An `ObjectiveObject` with `route_id = some 5` and behaviour 2. -/
def movingObjectiveObject : ObjectiveObject :=
  ⟨0, 0, 0, 0, 0, 1221, 0, 0, 0, some 2, some 5, 0, 2⟩

/-- `displaceObject` with path-movement behaviour 2 instead of 1. -/
def movingObject : Object :=
  { displaceObject with behaviour := some 2 }

/-! ### Call sequences against a `ValidationResult` (claim C10) -/

/-- One call of the mutating `ValidationResult` interface. -/
inductive LogOp where
  | err (msg : String)
  | warn (msg : String)
  | inf (msg : String)
deriving Repr, DecidableEq

/-- Apply one call. -/
def applyOp (r : ValidationResult) : LogOp → ValidationResult
  | .err m => r.add_error m
  | .warn m => r.add_warning m
  | .inf m => r.add_info m

/-- Run a call sequence on a freshly constructed `ValidationResult`. -/
def runOps (ops : List LogOp) : ValidationResult :=
  ops.foldl applyOp ValidationResult.empty

/-! ### Helper lemmas -/

/-- `add_warning` leaves `errors` unchanged. -/
theorem errors_add_warning (r : ValidationResult) (s : String) :
    (r.add_warning s).errors = r.errors := rfl

/-- `add_info` leaves `errors` unchanged. -/
theorem errors_add_info (r : ValidationResult) (s : String) :
    (r.add_info s).errors = r.errors := rfl

/-- Membership in `weaponValues` is exactly the gapped range 0..48 minus 19..21. -/
theorem weaponValues_mem (w : Int) :
    w ∈ weaponValues ↔ (0 ≤ w ∧ w ≤ 48 ∧ ¬(19 ≤ w ∧ w ≤ 21)) := by
  simp only [weaponValues, List.mem_cons, List.not_mem_nil, or_false]
  omega

/-- `b2n` inverts the parity test. -/
theorem b2n_mod2 (n : Nat) : b2n (n % 2 == 1) = n % 2 := by
  rcases Nat.mod_two_eq_zero_or_one n with h | h <;> simp [b2n, h]

/-- `b2n` composed with `== 1` is the identity on `Bool`. -/
theorem b2n_beq (b : Bool) : (b2n b == 1) = b := by
  cases b <;> simp [b2n]

/-- `b2n` is at most one. -/
theorem b2n_le_one (b : Bool) : b2n b ≤ 1 := by
  cases b <;> simp [b2n]

/-- `objectRefCheck` succeeds on every object that carries a non-`None`
`behaviour` whenever it carries a route reference. -/
theorem objectRefCheck_ok (dIds mIds : List Int) (idx : Nat) (o : Object)
    (h : o.route_id ≠ none → o.behaviour ≠ none) :
    ∃ es, objectRefCheck dIds mIds idx o = .ok es := by
  unfold objectRefCheck
  rcases hr : o.route_id with _ | rid
  · exact ⟨[], rfl⟩
  · have hb : o.behaviour ≠ none := h (by rw [hr]; simp)
    dsimp only
    by_cases h1 : o.behaviour == some 1
    · rw [if_pos h1]
      exact ⟨_, rfl⟩
    · rw [if_neg h1]
      rcases hbv : o.behaviour with _ | b
      · exact absurd hbv hb
      · exact ⟨_, rfl⟩

/-- The object loop succeeds when every object with a route reference has
a non-`None` behaviour. -/
theorem objectRefLoop_ok (dIds mIds : List Int) :
    ∀ (objs : List Object) (idx : Nat),
      (∀ o ∈ objs, o.route_id ≠ none → o.behaviour ≠ none) →
      ∃ es, objectRefLoop dIds mIds idx objs = .ok es := by
  intro objs
  induction objs with
  | nil => exact fun idx _ => ⟨[], rfl⟩
  | cons o rest ih =>
    intro idx h
    obtain ⟨e, he⟩ := objectRefCheck_ok dIds mIds idx o (h o (by simp))
    obtain ⟨es, hes⟩ := ih (idx + 1) (fun o ho => h o (by simp [ho]))
    refine ⟨e ++ es, ?_⟩
    unfold objectRefLoop
    rw [he, hes]
    rfl

/-- The interpolated message `f"PREFIX: {m}"` starts with the prefix, at
the level of character data. -/
theorem data_interp_prefix (p m : String) :
    p.data <+: (toString p ++ toString m ++ toString "").data := by
  show p.data <+: (p ++ m ++ "").data
  simp [String.data_append]

/-- The message-prefix invariant maintained by the `add_*` methods. -/
def msgInvariant (r : ValidationResult) : Prop :=
  (∀ s ∈ r.errors, "ERROR: ".data <+: s.data) ∧
  (∀ s ∈ r.warnings, "WARNING: ".data <+: s.data) ∧
  (∀ s ∈ r.info, "INFO: ".data <+: s.data)

/-- Each single call preserves the message-prefix invariant. -/
theorem applyOp_msgInvariant (r : ValidationResult) (op : LogOp)
    (h : msgInvariant r) : msgInvariant (applyOp r op) := by
  obtain ⟨he, hw, hi⟩ := h
  cases op with
  | err m =>
    refine ⟨?_, hw, hi⟩
    intro s hs
    rcases List.mem_append.1 hs with h1 | h1
    · exact he s h1
    · rcases List.mem_singleton.1 h1 with rfl
      exact data_interp_prefix "ERROR: " m
  | warn m =>
    refine ⟨he, ?_, hi⟩
    intro s hs
    rcases List.mem_append.1 hs with h1 | h1
    · exact hw s h1
    · rcases List.mem_singleton.1 h1 with rfl
      exact data_interp_prefix "WARNING: " m
  | inf m =>
    refine ⟨he, hw, ?_⟩
    intro s hs
    rcases List.mem_append.1 hs with h1 | h1
    · exact hi s h1
    · rcases List.mem_singleton.1 h1 with rfl
      exact data_interp_prefix "INFO: " m

/-- Folding any call sequence preserves the message-prefix invariant. -/
theorem foldl_msgInvariant (ops : List LogOp) :
    ∀ r : ValidationResult, msgInvariant r → msgInvariant (ops.foldl applyOp r) := by
  induction ops with
  | nil => intro r h; exact h
  | cons op rest ih =>
    intro r h
    exact ih (applyOp r op) (applyOp_msgInvariant r op h)

/-! ### Claim theorems -/

/-- Claim C1 (code bug).  The claim states that validation of any decoded
Mission runs all passes to completion and returns a `ValidationResult`
without raising; in fact `validate_references` evaluates
`actor.animation_info` (`src/validate_mission.py` line 104) on a model
that has no such attribute (`src/models/actor.py` declares `animation` and
`animation_argument` only), so for the concrete mission holding one fully
well-formed actor the validation stage raises `AttributeError` and no
`ValidationResult` is produced. -/
theorem c1_validation_raises_on_any_actor :
    validate_mission missionOneActor = .error (.attributeError "animation_info") := by
  rfl

/-- Claim C2 (code bug).  The objective branch of `validate_references`
dispatches on tags 1-3/4-7/10/24/11 and reads keys `actor_id`, `car_id`,
`pickup_id`, `object_id`, `movement_id`; the decoded variants carry the
`ObjectiveType` tags 1,2,3,5..22 and none declares any of those keys, so
`model_dump().get(key, -1)` always yields -1 and the branch emits no error
for any objective whatsoever.  In particular the mission holding one
cutscene objective whose `actor_idx` 5 resolves against an empty actor
collection validates with no error at all. -/
theorem c2_objective_references_never_checked :
    (∀ actor_ids car_ids pickup_ids object_ids movement_ids :
        List Int, ∀ idx : Nat, ∀ o : AnyObjective,
      objectiveRefErrors actor_ids car_ids pickup_ids object_ids movement_ids idx o = []) ∧
    validate_references missionDanglingCutscene ValidationResult.empty =
      .ok ValidationResult.empty := by
  constructor
  · intro a c p ob mv idx o
    cases o <;> rfl
  · rfl

/-- Claim C3, counterexample.  The claim states a mission with exactly 100
actors validates with no error and no warning on the actor-count check;
the code warns whenever `count > max_count * 0.9`, and `100 > 90.0`, so
the 100-actor mission produces an actor warning. -/
theorem c3_counterexample :
    (validate_entity_limits mission100 ValidationResult.empty).warnings =
      ["WARNING: Approaching limit for actors: 100/100"] := by
  decide

/-- Claim C3 as amended: a mission with exactly 100 actors produces no
error but does produce the 90%-threshold warning on the actor-count check;
91 actors produces a warning; 101 actors produces an error (and no
warning). -/
theorem c3_amended :
    (validate_entity_limits mission100 ValidationResult.empty).errors = [] ∧
    (validate_entity_limits mission100 ValidationResult.empty).warnings =
      ["WARNING: Approaching limit for actors: 100/100"] ∧
    (validate_entity_limits mission91 ValidationResult.empty).errors = [] ∧
    (validate_entity_limits mission91 ValidationResult.empty).warnings =
      ["WARNING: Approaching limit for actors: 91/100"] ∧
    (validate_entity_limits mission101 ValidationResult.empty).errors =
      ["ERROR: Too many actors: 101 (max: 100)"] ∧
    (validate_entity_limits mission101 ValidationResult.empty).warnings = [] := by
  refine ⟨by decide, by decide, by decide, by decide, by decide, by decide⟩

/-- Claim C8, counterexample.  The claim states that constructing an
`Actor` with a weapon value outside 0..48 fails decode; `Actor.weapon` is
declared as a plain `int` with `ge=0` only, so the actor with weapon 49
decodes successfully. -/
theorem c8_counterexample : decodeActor actor49 = some actor49 := by
  rfl

/-- Claim C8 as amended: fields actually typed as a bounded enumeration do
reject non-members at construction (shown for `PlayerInitial.weapon`,
typed `Weapon`: accepted exactly on 0..48 minus the 19..21 gap), but
`Actor.weapon` is a plain non-negative `int`, so an `Actor` with
weapon 49 decodes successfully while a negative weapon still fails. -/
theorem c8_amended :
    (∀ w : Int, (decodePlayerWeapon w).isSome = true ↔
      (0 ≤ w ∧ w ≤ 48 ∧ ¬(19 ≤ w ∧ w ≤ 21))) ∧
    decodeActor actor49 = some actor49 ∧
    decodeActor actorNeg = none := by
  refine ⟨?_, rfl, rfl⟩
  intro w
  rw [← weaponValues_mem]
  unfold decodePlayerWeapon
  by_cases hmem : w ∈ weaponValues
  · have h0 : 0 ≤ w := ((weaponValues_mem w).1 hmem).1
    simp [hmem, h0]
  · simp [hmem]

/-- Claim C9.  In every successfully decoded `Object` and
`ObjectiveObject`, `route_id` is either absent or an integer ≥ 1 (the
field is declared `int | None` with `ge=1`), so a negative route sentinel
is unrepresentable. -/
theorem c9_route_id_invariant :
    (∀ raw o : Object, decodeObject raw = some o →
      o.route_id = none ∨ ∃ n, o.route_id = some n ∧ 1 ≤ n) ∧
    (∀ raw o : ObjectiveObject, decodeObjectiveObject raw = some o →
      o.route_id = none ∨ ∃ n, o.route_id = some n ∧ 1 ≤ n) := by
  constructor
  · intro raw o h
    unfold decodeObject at h
    by_cases hw : objectWf raw = true
    · rw [if_pos hw] at h
      cases h
      unfold objectWf at hw
      simp only [Bool.and_eq_true] at hw
      have h2 := hw.1.1.2
      rcases hr : raw.route_id with _ | r
      · exact Or.inl rfl
      · refine Or.inr ⟨r, rfl, ?_⟩
        rw [hr] at h2
        simpa using h2
    · rw [if_neg hw] at h
      cases h
  · intro raw o h
    unfold decodeObjectiveObject at h
    by_cases hw : objectiveObjectWf raw = true
    · rw [if_pos hw] at h
      cases h
      unfold objectiveObjectWf at hw
      simp only [Bool.and_eq_true] at hw
      have h2 := hw.1.1.2
      rcases hr : raw.route_id with _ | r
      · exact Or.inl rfl
      · refine Or.inr ⟨r, rfl, ?_⟩
        rw [hr] at h2
        simpa using h2
    · rw [if_neg hw] at h
      cases h

/-- Witness for C9: the invariant evaluated on the concrete decoded
entities `displaceObject` and `movingObjectiveObject`. -/
theorem c9_witness :
    (displaceObject.route_id = none ∨ ∃ n, displaceObject.route_id = some n ∧ 1 ≤ n) ∧
    (movingObjectiveObject.route_id = none ∨
      ∃ n, movingObjectiveObject.route_id = some n ∧ 1 ≤ n) :=
  ⟨c9_route_id_invariant.1 displaceObject displaceObject (by rfl),
   c9_route_id_invariant.2 movingObjectiveObject movingObjectiveObject (by rfl)⟩

/-- Claim C10.  After any sequence of `add_error` / `add_warning` /
`add_info` calls on a fresh `ValidationResult`, every stored error starts
with `"ERROR: "`, every warning with `"WARNING: "`, every info line with
`"INFO: "`, and `is_valid()` returns true exactly when `errors` is
empty. -/
theorem c10_validation_result_invariants (ops : List LogOp) :
    (∀ s ∈ (runOps ops).errors, "ERROR: ".data <+: s.data) ∧
    (∀ s ∈ (runOps ops).warnings, "WARNING: ".data <+: s.data) ∧
    (∀ s ∈ (runOps ops).info, "INFO: ".data <+: s.data) ∧
    ((runOps ops).is_valid = true ↔ (runOps ops).errors = []) := by
  have h := foldl_msgInvariant ops ValidationResult.empty
    ⟨(by intro s hs; cases hs), (by intro s hs; cases hs), (by intro s hs; cases hs)⟩
  refine ⟨h.1, h.2.1, h.2.2, ?_⟩
  unfold ValidationResult.is_valid
  rw [beq_iff_eq, List.length_eq_zero]

/-- Witness for C10: the invariant evaluated on a concrete call
sequence. -/
theorem c10_witness :
    ("ERROR: ".data <+: "ERROR: boom".data) ∧
    ((runOps [LogOp.err "boom", LogOp.inf "n"]).is_valid = true ↔
      (runOps [LogOp.err "boom", LogOp.inf "n"]).errors = []) :=
  ⟨(c10_validation_result_invariants [LogOp.err "boom", LogOp.inf "n"]).1
      "ERROR: boom" (by decide),
   (c10_validation_result_invariants [LogOp.err "boom", LogOp.inf "n"]).2.2.2⟩

set_option maxRecDepth 8000 in
/-- Claim C7.  The route-point budget sums the point counts of routes,
movements and displacements; a route-point error is emitted exactly when
the total exceeds 399.  The concrete 133+133+133 mission passes with no
error, and raising one route to 134 points (total 400) yields the
"too many total route points" error. -/
theorem c7_route_point_budget :
    (∀ m : Mission,
      ((validate_route_points m ValidationResult.empty).errors ≠ [] ↔
        totalRoutePoints m > 399)) ∧
    (validate_route_points mission399 ValidationResult.empty).errors = [] ∧
    (validate_route_points mission400 ValidationResult.empty).errors =
      ["ERROR: Too many total route points: 400 (max: 399)"] := by
  refine ⟨?_, by decide, by decide⟩
  intro m
  unfold validate_route_points
  dsimp only
  split_ifs with h1 h2 h3 h4 h5 <;>
    simp [ValidationResult.add_error, ValidationResult.add_warning,
      ValidationResult.add_info, ValidationResult.empty] <;>
    omega

/-- Claim C4.  Round-trip laws of the bitfield codecs (modelled from the
spec, no codec functions exist under `src/`): for the object interior
composite, the cutscene behaviour composite and the actor/car
behaviour-flag composites, `encode (decode x) = x` on every legal raw
integer and `decode (encode c) = c` on every legal components value; in
particular interior 2 with behaviour 3 encodes to 194 and 194 decodes
back to interior 2, behaviour 3. -/
theorem c4_bitfield_roundtrips :
    (∀ x : Nat, ∀ c : InteriorComponents, interiorDecode x = some c → interiorEncode c = x) ∧
    (∀ i b : Nat, i ≤ 7 →
      interiorDecode (interiorEncode ⟨i, b⟩) = some ⟨i, b⟩) ∧
    (interiorEncode ⟨2, 3⟩ = 194 ∧ interiorDecode 194 = some ⟨2, 3⟩) ∧
    (∀ x : Nat, x < 4096 → cutsceneEncode (cutsceneDecode x) = x) ∧
    (∀ m : Nat, m < 9 → ∀ s sh f w : Bool,
      cutsceneDecode (cutsceneEncode ⟨m, s, sh, f, w⟩) = ⟨m, s, sh, f, w⟩) ∧
    (∀ x : Nat, actorFlagsEncode (actorFlagsDecode x) = x) ∧
    (∀ c : ActorFlagComponents, actorFlagsLegal c →
      actorFlagsDecode (actorFlagsEncode c) = c) ∧
    (∀ x : Nat, carFlagsEncode (carFlagsDecode x) = x) ∧
    (∀ c : CarFlagComponents, carFlagsLegal c →
      carFlagsDecode (carFlagsEncode c) = c) := by
  refine ⟨?_, ?_, ⟨by decide, by decide⟩, ?_, ?_, ?_, ?_, ?_, ?_⟩
  · intro x c h
    unfold interiorDecode at h
    split at h
    · cases h
      unfold interiorEncode
      dsimp only
      omega
    · cases h
  · intro i b hi
    have h1 : (i + 64 * b) % 64 = i := by omega
    have h2 : (i + 64 * b) / 64 = b := by omega
    unfold interiorDecode interiorEncode
    dsimp only
    rw [h1, h2, if_pos hi]
  · intro x hx
    unfold cutsceneEncode cutsceneDecode
    dsimp only
    rw [b2n_mod2, b2n_mod2, b2n_mod2, b2n_mod2]
    omega
  · decide
  · intro x
    unfold actorFlagsEncode actorFlagsDecode
    dsimp only
    rw [b2n_mod2, b2n_mod2, b2n_mod2, b2n_mod2, b2n_mod2, b2n_mod2, b2n_mod2]
    omega
  · intro c h
    unfold actorFlagsLegal at h
    obtain ⟨b1, b2, b3, b4, b5, b6, b7, rest⟩ := c
    dsimp only at h
    have h1 := b2n_le_one b1
    have h2 := b2n_le_one b2
    have h3 := b2n_le_one b3
    have h4 := b2n_le_one b4
    have h5 := b2n_le_one b5
    have h6 := b2n_le_one b6
    have h7 := b2n_le_one b7
    unfold actorFlagsEncode actorFlagsDecode
    dsimp only
    rw [show (rest + 2 * b2n b1 + 4 * b2n b2 + 8 * b2n b3 + 16 * b2n b4 +
          32 * b2n b5 + 64 * b2n b6 + 128 * b2n b7) / 2 % 2 = b2n b1 from by omega,
        show (rest + 2 * b2n b1 + 4 * b2n b2 + 8 * b2n b3 + 16 * b2n b4 +
          32 * b2n b5 + 64 * b2n b6 + 128 * b2n b7) / 4 % 2 = b2n b2 from by omega,
        show (rest + 2 * b2n b1 + 4 * b2n b2 + 8 * b2n b3 + 16 * b2n b4 +
          32 * b2n b5 + 64 * b2n b6 + 128 * b2n b7) / 8 % 2 = b2n b3 from by omega,
        show (rest + 2 * b2n b1 + 4 * b2n b2 + 8 * b2n b3 + 16 * b2n b4 +
          32 * b2n b5 + 64 * b2n b6 + 128 * b2n b7) / 16 % 2 = b2n b4 from by omega,
        show (rest + 2 * b2n b1 + 4 * b2n b2 + 8 * b2n b3 + 16 * b2n b4 +
          32 * b2n b5 + 64 * b2n b6 + 128 * b2n b7) / 32 % 2 = b2n b5 from by omega,
        show (rest + 2 * b2n b1 + 4 * b2n b2 + 8 * b2n b3 + 16 * b2n b4 +
          32 * b2n b5 + 64 * b2n b6 + 128 * b2n b7) / 64 % 2 = b2n b6 from by omega,
        show (rest + 2 * b2n b1 + 4 * b2n b2 + 8 * b2n b3 + 16 * b2n b4 +
          32 * b2n b5 + 64 * b2n b6 + 128 * b2n b7) / 128 % 2 = b2n b7 from by omega,
        show (rest + 2 * b2n b1 + 4 * b2n b2 + 8 * b2n b3 + 16 * b2n b4 +
          32 * b2n b5 + 64 * b2n b6 + 128 * b2n b7) % 2 + 256 *
          ((rest + 2 * b2n b1 + 4 * b2n b2 + 8 * b2n b3 + 16 * b2n b4 +
          32 * b2n b5 + 64 * b2n b6 + 128 * b2n b7) / 256) = rest from by omega]
    rw [b2n_beq, b2n_beq, b2n_beq, b2n_beq, b2n_beq, b2n_beq, b2n_beq]
  · intro x
    unfold carFlagsEncode carFlagsDecode
    dsimp only
    rw [b2n_mod2, b2n_mod2]
    omega
  · intro c h
    unfold carFlagsLegal at h
    obtain ⟨b1, b2, rest⟩ := c
    dsimp only at h
    obtain ⟨ha, hb⟩ := h
    have h1 := b2n_le_one b1
    have h2 := b2n_le_one b2
    unfold carFlagsEncode carFlagsDecode
    dsimp only
    rw [show (rest + 32 * b2n b1 + 512 * b2n b2) / 32 % 2 = b2n b1 from by omega,
        show (rest + 32 * b2n b1 + 512 * b2n b2) / 512 % 2 = b2n b2 from by omega,
        show (rest + 32 * b2n b1 + 512 * b2n b2) % 32 + 64 *
          ((rest + 32 * b2n b1 + 512 * b2n b2) / 64 % 8) + 1024 *
          ((rest + 32 * b2n b1 + 512 * b2n b2) / 1024) = rest from by omega]
    rw [b2n_beq, b2n_beq]

/-- Witness for C4: the round-trip laws evaluated at concrete inputs,
among them the 194 interior example. -/
theorem c4_witness :
    interiorEncode ⟨2, 3⟩ = 194 ∧
    interiorDecode (interiorEncode ⟨5, 9⟩) = some ⟨5, 9⟩ ∧
    cutsceneEncode (cutsceneDecode 770) = 770 ∧
    cutsceneDecode (cutsceneEncode ⟨8, true, false, true, false⟩) =
      ⟨8, true, false, true, false⟩ ∧
    actorFlagsDecode (actorFlagsEncode ⟨true, false, true, false, true, false, true, 257⟩) =
      ⟨true, false, true, false, true, false, true, 257⟩ ∧
    carFlagsDecode (carFlagsEncode ⟨true, true, 7⟩) = ⟨true, true, 7⟩ := by
  refine ⟨c4_bitfield_roundtrips.2.2.1.1, ?_, ?_, ?_, ?_, ?_⟩
  · exact c4_bitfield_roundtrips.2.1 5 9 (by decide)
  · exact c4_bitfield_roundtrips.2.2.2.1 770 (by decide)
  · exact c4_bitfield_roundtrips.2.2.2.2.1 8 (by decide) true false true false
  · exact c4_bitfield_roundtrips.2.2.2.2.2.2.1 ⟨true, false, true, false, true, false, true, 257⟩
      (by unfold actorFlagsLegal; decide)
  · exact c4_bitfield_roundtrips.2.2.2.2.2.2.2.2 ⟨true, true, 7⟩
      (by unfold carFlagsLegal; exact ⟨by decide, by decide⟩)

/-- Claim C5, counterexample.  Decoding a raw mission whose two objective
records carry tags 4 and 99 does fail, but none of the produced error
lines contains the text "unknown objective type", and none contains the
offending tag value 99: pydantic reports one literal-mismatch error per
union member instead. -/
theorem c5_counterexample :
    c5Result.errors ≠ [] ∧
    c5Result.errors.all (fun e => !(hasSub "unknown objective type" e)) = true ∧
    c5Result.errors.all (fun e => !(hasSub "99" e)) = true := by
  refine ⟨by decide, by decide, by decide⟩

/-- Claim C5 as amended: a raw objective record whose tag lies outside
{1,2,3,5..22} (e.g. the reserved 4, or 99) fails mission decode, every
failing objective is reported (the error locations name sequence indices
0 and 1), and the errors are the per-union-member literal mismatches
("Input should be k") rather than a single "unknown objective type" error
carrying the offending tag. -/
theorem c5_amended :
    c5Result.errors ≠ [] ∧
    "ERROR: Schema validation failed:" ∈ c5Result.errors ∧
    "ERROR:   objectives -> 0 -> ObjectiveCar -> objective_type: Input should be 1" ∈
      c5Result.errors ∧
    "ERROR:   objectives -> 1 -> ObjectiveCar -> objective_type: Input should be 1" ∈
      c5Result.errors ∧
    (∀ t : Int, t ∉ knownTags → objectiveTagErrors 0 t ≠ []) ∧
    (∀ idx : Nat, ∀ t ∈ knownTags, objectiveTagErrors idx t = []) := by
  refine ⟨by decide, by decide, by decide, by decide, ?_, ?_⟩
  · intro t ht
    simp [objectiveTagErrors, ht, unionMembers]
  · intro idx t ht
    simp [objectiveTagErrors, ht]

/-- Witness for C5: the amended characterisation applied at tags 99
(unknown) and 22 (known). -/
theorem c5_witness :
    objectiveTagErrors 0 99 ≠ [] ∧ objectiveTagErrors 3 22 = [] :=
  ⟨c5_amended.2.2.2.2.1 99 (by decide), c5_amended.2.2.2.2.2 3 22 (by decide)⟩

/-- Claim C6, counterexample.  The claim asserts that for every mission,
an object with `behaviour = 1` and a route id absent from the
displacements list yields an invalid-reference error naming the object.
For the concrete mission holding one actor together with exactly such an
object (route id 5 present only among movements), `validate_references`
raises `AttributeError` in its actor loop before reaching the object
checks, so no `ValidationResult` — and hence no such error — is ever
produced. -/
theorem c6_counterexample :
    validate_references missionActorAndObject ValidationResult.empty =
      .error (.attributeError "animation_info") := by
  rfl

/-- Claim C6 as amended: *when the reference pass is reachable* (no
actors, and every route-carrying object has a non-`None` behaviour), an
object's route reference with behaviour 1 is checked only against the
displacements ids, one with behaviour 2, 3 or 4 only against the
movements ids — the equations do not depend on the other list — and the
emitted error names the object index and the reference value exactly when
the id is absent from the required list. -/
theorem c6_amended :
    (∀ dIds mIds : List Int, ∀ idx : Nat, ∀ o : Object, ∀ rid : Int,
      o.route_id = some rid → 0 ≤ rid → o.behaviour = some 1 →
      objectRefCheck dIds mIds idx o =
        .ok (if dIds.contains rid then []
             else [s!"Object {idx}: Invalid displacement_id {rid}"])) ∧
    (∀ dIds mIds : List Int, ∀ idx : Nat, ∀ o : Object, ∀ rid b : Int,
      o.route_id = some rid → 0 ≤ rid → o.behaviour = some b →
      (b = 2 ∨ b = 3 ∨ b = 4) →
      objectRefCheck dIds mIds idx o =
        .ok (if mIds.contains rid then []
             else [s!"Object {idx}: Invalid movement_id {rid}"])) ∧
    (∀ m : Mission, ∀ res : ValidationResult, m.actors = [] →
      (∀ o ∈ m.objects, o.route_id ≠ none → o.behaviour ≠ none) →
      ∃ r, validate_references m res = .ok r) := by
  refine ⟨?_, ?_, ?_⟩
  · intro dIds mIds idx o rid hr h0 hb
    unfold objectRefCheck
    rw [hr]
    dsimp only
    rw [hb]
    rw [if_pos (by simp)]
    rcases hc : dIds.contains rid with _ | _ <;>
      simp [hc, h0]
  · intro dIds mIds idx o rid b hr h0 hb hbv
    unfold objectRefCheck
    rw [hr]
    dsimp only
    rw [hb]
    rw [if_neg (by simp; omega)]
    have h1 : decide (1 < b) = true := by
      rcases hbv with rfl | rfl | rfl <;> decide
    rcases hc : mIds.contains rid with _ | _ <;>
      simp [hc, h0, h1]
  · intro m res hact hobj
    obtain ⟨es, hes⟩ := objectRefLoop_ok
      (m.paths.displacements.map (fun r => r.id))
      (m.paths.movements.map (fun r => r.id)) m.objects 0 hobj
    unfold validate_references
    rw [hact]
    simp only [actorRefLoop, bind, Except.bind, hes]
    exact ⟨_, rfl⟩

/-- Witness for C6: the amended equations evaluated on the concrete
objects `displaceObject` (behaviour 1, resolving displacement id 5) and
`movingObject` (behaviour 2, dangling movement id 5), and pass completion
on the actor-free mission. -/
theorem c6_witness :
    objectRefCheck [5] [] 0 displaceObject = .ok [] ∧
    objectRefCheck [] [] 0 movingObject = .ok ["Object 0: Invalid movement_id 5"] ∧
    (∃ r, validate_references missionDanglingCutscene ValidationResult.empty = .ok r) := by
  refine ⟨?_, ?_, ?_⟩
  · have h := c6_amended.1 [5] [] 0 displaceObject 5 rfl (by decide) rfl
    rw [h]
    exact congrArg Except.ok (by decide)
  · have h := c6_amended.2.1 [] [] 0 movingObject 5 2 rfl (by decide) rfl (Or.inl rfl)
    rw [h]
    exact congrArg Except.ok (by decide)
  · exact c6_amended.2.2 missionDanglingCutscene ValidationResult.empty rfl
      (by intro o ho; simp [missionDanglingCutscene, emptyMission] at ho)

end DYOM
